import Mathlib

/-!
Verification of the YS E-learning system core (lockout governor,
quiz timer, scoring engine, result recorder) against its specification.

The Python sources `src/database_manager.py` and `src/main_azure_sso.py`
are shallowly embedded below: SQLite tables become lists of row
structures, the `datetime` clock becomes an explicit integer instant
(seconds), and each method becomes a pure function from the database
state to a (result, new state) pair.
-/

namespace ELearning

/-- A row of the `users` table (schema in `DatabaseManager.init_database`).
`lockedUntil` and `lastLogin` are nullable TIMESTAMP columns, modelled as
optional instants in seconds. -/
structure UserRow where
  userId : Nat
  username : String
  passwordHash : String
  email : String
  fullName : String
  role : String
  status : String
  failedLoginCount : Nat
  lockedUntil : Option Int
  lastLogin : Option Int
  deriving Repr, DecidableEq

/-- A row of the `login_logs` table, as written by
`DatabaseManager._log_login_attempt`.  `userId` is nullable: unknown
usernames are logged with NULL. -/
structure LoginLogRow where
  userId : Option Nat
  username : String
  status : String
  ipAddress : String
  userAgent : String
  errorMessage : Option String
  deriving Repr, DecidableEq

/-- The configuration surface read by `authenticate_user` via
`_load_config`: `users.max_login_attempts` (default 5) and
`users.lockout_minutes` (default 30). -/
structure AuthConfig where
  maxLoginAttempts : Nat
  lockoutMinutes : Nat
  deriving Repr, DecidableEq

/-- The authentication-relevant database state: the `users` table, the
append-only `login_logs` table, and the AUTOINCREMENT counter for
`user_id`. -/
structure AuthDB where
  users : List UserRow
  loginLogs : List LoginLogRow
  nextUserId : Nat
  deriving Repr, DecidableEq

/-- The dictionary returned by `DatabaseManager.authenticate_user`:
`status` is `"success"` or `"failed"`, failures carry a `message`,
successes carry the `user_id`. -/
structure AuthResult where
  status : String
  message : Option String
  userId : Option Nat
  deriving Repr, DecidableEq

/-- `SELECT ... FROM users WHERE username = ?` followed by `fetchone()`:
the first row whose `username` matches (the UNIQUE constraint makes it
the only one). -/
def findUser (users : List UserRow) (username : String) : Option UserRow :=
  users.find? (fun r => r.username == username)

/-- `UPDATE users SET ... WHERE user_id = ?`: apply `f` to every row
whose `user_id` equals `uid`. -/
def updateUsers (users : List UserRow) (uid : Nat) (f : UserRow → UserRow) :
    List UserRow :=
  users.map (fun r => if r.userId = uid then f r else r)

/-- `DatabaseManager._log_login_attempt`: append one row to `login_logs`. -/
def logAttempt (db : AuthDB) (uid : Option Nat) (username stat : String)
    (ip agent : String) (err : Option String) : AuthDB :=
  { db with loginLogs := db.loginLogs ++ [⟨uid, username, stat, ip, agent, err⟩] }

/-- Message returned when the username does not exist
(database_manager.py line 182). -/
def userNotFoundMessage : String :=
  "ユーザー名またはパスワードが正しくありません"

/-- Message returned when the account status is not `active`
(database_manager.py line 194). -/
def disabledMessage (stat : String) : String :=
  "このアカウントは " ++ stat ++ " です。管理者に連絡してください。"

/-- Message returned while the account is locked
(database_manager.py line 207). -/
def lockedMessage (remainingMinutes : Int) : String :=
  "アカウントがロックされています。" ++ toString remainingMinutes ++
    "分後に再度お試しください。"

/-- Message returned when the failed-attempt limit has just been reached
(database_manager.py line 243). -/
def lockedJustNowMessage (maxAttempts lockoutMinutes : Nat) : String :=
  "パスワードが正しくありません。" ++ toString maxAttempts ++
    "回失敗したため、アカウントが" ++ toString lockoutMinutes ++
    "分間ロックされました。"

/-- Message returned on a wrong password below the limit
(database_manager.py line 257). -/
def invalidSecretMessage (remainingAttempts : Nat) : String :=
  "パスワードが正しくありません。残り " ++ toString remainingAttempts ++
    " 回試行できます。"

/-- The password-comparison tail of `authenticate_user`
(database_manager.py lines 218-274): runs after the user has been found,
its status checked, and any expired lock reset; `failedCount` is the
local `failed_count` variable at that point. -/
def passwordStep (hash : String → String) (config : AuthConfig) (now : Int)
    (db : AuthDB) (username password ip agent : String)
    (userId : Nat) (passwordHash : String) (failedCount : Nat) :
    AuthResult × AuthDB :=
  if passwordHash ≠ hash password then
    let newFailedCount := failedCount + 1
    if config.maxLoginAttempts ≤ newFailedCount then
      let lockedUntilT := now + (config.lockoutMinutes : Int) * 60
      let db := { db with users := updateUsers db.users userId (fun r =>
        { r with failedLoginCount := newFailedCount,
                 lockedUntil := some lockedUntilT }) }
      let db := logAttempt db (some userId) username "failed" ip agent
        (some ("パスワード不一致 - ロック中（" ++ toString config.lockoutMinutes ++ "分）"))
      (⟨"failed", some (lockedJustNowMessage config.maxLoginAttempts config.lockoutMinutes),
        none⟩, db)
    else
      let db := { db with users := updateUsers db.users userId (fun r =>
        { r with failedLoginCount := newFailedCount }) }
      let remainingAttempts := config.maxLoginAttempts - newFailedCount
      let db := logAttempt db (some userId) username "failed" ip agent
        (some ("パスワード不一致（残り" ++ toString remainingAttempts ++ "回）"))
      (⟨"failed", some (invalidSecretMessage remainingAttempts), none⟩, db)
  else
    let db := { db with users := updateUsers db.users userId (fun r =>
      { r with lastLogin := some now, failedLoginCount := 0, lockedUntil := none }) }
    let db := logAttempt db (some userId) username "success" ip agent none
    (⟨"success", none, some userId⟩, db)

/-- `DatabaseManager.authenticate_user` (database_manager.py lines
155-274).  `hash` embeds `self.hash_password`; `now` is the value of
`datetime.now()` during the call, in seconds. -/
def authenticate_user (hash : String → String) (config : AuthConfig) (now : Int)
    (db : AuthDB) (username password ip agent : String) :
    AuthResult × AuthDB :=
  match findUser db.users username with
  | none =>
    let db := logAttempt db none username "failed" ip agent
      (some "ユーザーが見つかりません")
    (⟨"failed", some userNotFoundMessage, none⟩, db)
  | some row =>
    if row.status ≠ "active" then
      let db := logAttempt db (some row.userId) username "failed" ip agent
        (some ("ユーザーステータス: " ++ row.status))
      (⟨"failed", some (disabledMessage row.status), none⟩, db)
    else
      match row.lockedUntil with
      | some lockedUntilT =>
        if now < lockedUntilT then
          let remainingMinutes := (lockedUntilT - now) / 60
          let db := logAttempt db (some row.userId) username "failed" ip agent
            (some ("アカウントロック中（残り" ++ toString remainingMinutes ++ "分）"))
          (⟨"failed", some (lockedMessage remainingMinutes), none⟩, db)
        else
          let db := { db with users := updateUsers db.users row.userId (fun r =>
            { r with failedLoginCount := 0, lockedUntil := none }) }
          passwordStep hash config now db username password ip agent
            row.userId row.passwordHash 0
      | none =>
        passwordStep hash config now db username password ip agent
          row.userId row.passwordHash row.failedLoginCount

/-- `DatabaseManager.add_user` (database_manager.py lines 138-153): an
`INSERT` into `users`; the UNIQUE constraint on `username` raises
`sqlite3.IntegrityError` when the username already exists, which
`add_user` catches, returning `False` with nothing committed. -/
def add_user (hash : String → String) (db : AuthDB)
    (username password email fullName role : String) : Bool × AuthDB :=
  if db.users.any (fun r => r.username == username) then
    (false, db)
  else
    let row : UserRow :=
      { userId := db.nextUserId, username := username,
        passwordHash := hash password, email := email, fullName := fullName,
        role := role, status := "active", failedLoginCount := 0,
        lockedUntil := none, lastLogin := none }
    (true, { db with users := db.users ++ [row],
                     nextUserId := db.nextUserId + 1 })

/-- A quiz question as loaded by `load_questions` in `main_azure_sso.py`:
an id, a multiple-choice flag and the set of correct letters (the prompt
and choice texts play no role in scoring and are omitted). -/
structure Question where
  id : Nat
  multiple_choice : Bool
  correct_answers : List String
  deriving Repr, DecidableEq

/-- A row of the `quiz_results` table, as inserted by
`DatabaseManager.save_quiz_result`. -/
structure QuizResultRow where
  userId : Nat
  courseId : Nat
  questionId : Nat
  selectedAnswers : List String
  isCorrect : Bool
  scoreEarned : Nat
  deriving Repr, DecidableEq

/-- A row of the `course_scores` table, as written by
`DatabaseManager.save_course_score`.  The table carries a
`UNIQUE(user_id, course_id)` constraint. -/
structure CourseScoreRow where
  userId : Nat
  courseId : Nat
  totalScore : Nat
  maxScore : Nat
  scorePercent : ℚ
  passed : Bool
  completedAt : Int
  deriving Repr, DecidableEq

/-- The scoring-relevant database state: the append-only `quiz_results`
table and the `course_scores` table. -/
structure QuizDB where
  quizResults : List QuizResultRow
  courseScores : List CourseScoreRow
  deriving Repr, DecidableEq

/-- The percent formula `(total_score / max_score * 100) if max_score > 0
else 0`, written identically at main_azure_sso.py line 475 and
database_manager.py line 385. -/
def score_percent (totalScore maxScore : Nat) : ℚ :=
  if 0 < maxScore then (totalScore : ℚ) / (maxScore : ℚ) * 100 else 0

/-- `DatabaseManager.save_quiz_result`: append one row to `quiz_results`
(a plain INSERT; the table has no uniqueness constraint on
(user, course, question)). -/
def save_quiz_result (db : QuizDB) (userId courseId questionId : Nat)
    (selectedAnswers : List String) (isCorrect : Bool) (scoreEarned : Nat) :
    QuizDB :=
  { db with quizResults := db.quizResults ++
      [⟨userId, courseId, questionId, selectedAnswers, isCorrect, scoreEarned⟩] }

/-- `INSERT OR REPLACE INTO course_scores` under the
`UNIQUE(user_id, course_id)` constraint: any existing row for the same
(user, course) pair is replaced by the new row. -/
def upsertCourseScore (scores : List CourseScoreRow) (row : CourseScoreRow) :
    List CourseScoreRow :=
  (scores.filter (fun r => !(r.userId == row.userId && r.courseId == row.courseId)))
    ++ [row]

/-- `DatabaseManager.save_course_score` (database_manager.py lines
381-410): computes the percent and pass flag and upserts the row.  The
returned Python dict rounds the percent for display; the stored value is
unrounded, and the claims concern the stored row, returned here. -/
def save_course_score (now : Int) (db : QuizDB) (userId courseId : Nat)
    (totalScore maxScore : Nat) (passingScorePercent : ℚ) :
    CourseScoreRow × QuizDB :=
  let scorePercent := score_percent totalScore maxScore
  let passed := decide (passingScorePercent ≤ scorePercent)
  let row : CourseScoreRow :=
    ⟨userId, courseId, totalScore, maxScore, scorePercent, passed, now⟩
  (row, { db with courseScores := upsertCourseScore db.courseScores row })

/-- Python `set(selected) == set(correct_answers)`
(main_azure_sso.py line 458): exact set equality of the letter sets. -/
def setEqBool (a b : List String) : Bool :=
  decide (a.toFinset = b.toFinset)

/-- Accumulator of the scoring loop in `submit_quiz` (the local
variables `total_score`, `max_score`, `correct_count` and the database
connection). -/
structure GradeAcc where
  total_score : Nat
  max_score : Nat
  correct_count : Nat
  db : QuizDB
  deriving Repr, DecidableEq

/-- One iteration of the `for q in questions` loop of `submit_quiz`
(main_azure_sso.py lines 452-472): add the per-question points to the
maximum, grade by exact set equality, and insert a `quiz_results` row. -/
def submitStep (points : Nat) (userId courseId : Nat)
    (answers : Nat → List String) (acc : GradeAcc) (q : Question) : GradeAcc :=
  let selected := answers q.id
  let isCorrect := setEqBool selected q.correct_answers
  { total_score := if isCorrect then acc.total_score + points else acc.total_score,
    max_score := acc.max_score + points,
    correct_count := if isCorrect then acc.correct_count + 1 else acc.correct_count,
    db := save_quiz_result acc.db userId courseId q.id selected isCorrect
      (if isCorrect then points else 0) }

/-- The `st.session_state.result_*` fields set by `submit_quiz`
(main_azure_sso.py lines 512-518). -/
structure SubmitOutcome where
  result_score : Nat
  result_max_score : Nat
  result_percent : ℚ
  result_passed : Bool
  result_correct : Nat
  result_total : Nat
  deriving Repr, DecidableEq

/-- `submit_quiz` (main_azure_sso.py lines 445-519): grade every question
by exact set equality, insert one `quiz_results` row per question,
compute the percent and pass flag, and store the course score via
`save_course_score`.  `answers` embeds `st.session_state.quiz_answers.get`
with its `[]` default; `points` is `config.quiz.points_per_question`
(default 20); `passingScore` is `st.session_state.passing_score`; `now`
is the submission instant used for `completed_at`. -/
def submit_quiz (points : Nat) (passingScore : ℚ) (userId courseId : Nat)
    (now : Int) (questions : List Question) (answers : Nat → List String)
    (db : QuizDB) : SubmitOutcome × QuizDB :=
  let acc := questions.foldl (submitStep points userId courseId answers)
    ⟨0, 0, 0, db⟩
  let scorePercent := score_percent acc.total_score acc.max_score
  let passed := decide (passingScore ≤ scorePercent)
  let saved := save_course_score now acc.db userId courseId
    acc.total_score acc.max_score passingScore
  (⟨acc.total_score, acc.max_score, scorePercent, passed,
    acc.correct_count, questions.length⟩, saved.2)

/-- The timer computation of `show_quiz_page` (main_azure_sso.py line
390): `elapsed_time = (datetime.now() - st.session_state.quiz_start_time)
.total_seconds()`.  Instants are rationals in seconds. -/
def elapsed_time (quiz_start_time now : ℚ) : ℚ :=
  now - quiz_start_time

/-- main_azure_sso.py line 391: `remaining_time =
st.session_state.quiz_time_limit - elapsed_time`. -/
def remaining_time (quiz_time_limit quiz_start_time now : ℚ) : ℚ :=
  quiz_time_limit - elapsed_time quiz_start_time now

/-- The branch condition at main_azure_sso.py line 395: the session is
expired (time-up path, auto-submit) exactly when the code's
`remaining_time > 0` test fails. -/
def isExpired (quiz_time_limit quiz_start_time now : ℚ) : Bool :=
  !(decide (0 < remaining_time quiz_time_limit quiz_start_time now))

/-- The `quiz_results` row that the scoring loop of `submit_quiz` inserts
for question `q` (the arguments of the `db.save_quiz_result` call at
main_azure_sso.py lines 465-472). -/
def gradedRow (points : Nat) (userId courseId : Nat)
    (answers : Nat → List String) (q : Question) : QuizResultRow :=
  { userId := userId, courseId := courseId, questionId := q.id,
    selectedAnswers := answers q.id,
    isCorrect := setEqBool (answers q.id) q.correct_answers,
    scoreEarned := if setEqBool (answers q.id) q.correct_answers then points else 0 }

/-- Number of `course_scores` rows for a given (user, course) pair. -/
def pairCountScores (scores : List CourseScoreRow) (u c : Nat) : Nat :=
  (scores.filter (fun r => r.userId == u && r.courseId == c)).length

/-- A concrete active, unlocked user with no failed attempts. -/
def exampleUser : UserRow :=
  { userId := 1, username := "alice", passwordHash := "pw", email := "",
    fullName := "", role := "student", status := "active",
    failedLoginCount := 0, lockedUntil := none, lastLogin := none }

/-- A database holding only `exampleUser`. -/
def exampleAuthDB : AuthDB := { users := [exampleUser], loginLogs := [], nextUserId := 2 }

/-- A user one failed attempt away from the limit of 3. -/
def nearLockUser : UserRow := { exampleUser with failedLoginCount := 2 }

/-- A database holding only `nearLockUser`. -/
def nearLockDB : AuthDB := { users := [nearLockUser], loginLogs := [], nextUserId := 2 }

/-- A user whose lock expires at instant 100. -/
def expiredLockUser : UserRow :=
  { exampleUser with failedLoginCount := 3, lockedUntil := some 100 }

/-- A database holding only `expiredLockUser`. -/
def expiredLockDB : AuthDB :=
  { users := [expiredLockUser], loginLogs := [], nextUserId := 2 }

/-- A concrete multi-select question with correct letters A and B. -/
def exampleQuestion : Question :=
  { id := 1, multiple_choice := true, correct_answers := ["A", "B"] }

/-- An empty scoring database. -/
def exampleQuizDB : QuizDB := { quizResults := [], courseScores := [] }

/-- An answer map that always selects exactly the letters A and B. -/
def exampleAnswers : Nat → List String := fun _ => ["A", "B"]

/-- C4: for every quiz session, `remaining(session, now)` equals
`timeLimitSeconds - (now - startInstant)` computed from the persisted
start instant; for instants `now1 ≤ now2` after the start, remaining at
`now2` is at most remaining at `now1`; the session is expired exactly
when remaining is at most 0; and once expired it stays expired at every
later instant. -/
theorem C4_remaining_monotone_expiry_absorbing (limit start now1 now2 : ℚ)
    (h0 : start ≤ now1) (h12 : now1 ≤ now2) :
    (∀ now : ℚ, remaining_time limit start now = limit - (now - start)) ∧
    remaining_time limit start now2 ≤ remaining_time limit start now1 ∧
    (isExpired limit start now1 = true ↔ remaining_time limit start now1 ≤ 0) ∧
    (isExpired limit start now1 = true → isExpired limit start now2 = true) := by
  refine ⟨fun now => rfl, ?_, ?_, ?_⟩
  · simp only [remaining_time, elapsed_time]
    linarith
  · simp [isExpired, not_lt]
  · simp only [isExpired, Bool.not_eq_eq_eq_not, Bool.not_true, decide_eq_false_iff_not,
      not_lt, remaining_time, elapsed_time]
    intro h
    linarith

/-- Witness for C4 at time limit 300, start 0, instants 100 and 200. -/
theorem C4_witness :
    (0 : ℚ) ≤ 100 ∧ (100 : ℚ) ≤ 200 ∧
    remaining_time 300 0 200 ≤ remaining_time 300 0 100 :=
  ⟨by norm_num, by norm_num,
    (C4_remaining_monotone_expiry_absorbing 300 0 100 200 (by norm_num)
      (by norm_num)).2.1⟩

/-- C7: the score percent equals `totalScore / maxScore * 100` when
`maxScore > 0` and is 0 when `maxScore = 0` (e.g. an empty question
set); the computation is total (no division error), both in the
quiz-submission path and in `save_course_score`. -/
theorem C7_score_percent_total (points userId courseId : Nat)
    (passingScore : ℚ) (now : Int) (questions : List Question)
    (answers : Nat → List String) (db : QuizDB) (totalScore maxScore : Nat) :
    (0 < maxScore →
      score_percent totalScore maxScore = (totalScore : ℚ) / (maxScore : ℚ) * 100) ∧
    (maxScore = 0 → score_percent totalScore maxScore = 0) ∧
    (submit_quiz points passingScore userId courseId now questions answers db).1.result_percent =
      score_percent
        (submit_quiz points passingScore userId courseId now questions answers db).1.result_score
        (submit_quiz points passingScore userId courseId now questions answers db).1.result_max_score ∧
    (questions = [] →
      (submit_quiz points passingScore userId courseId now questions answers db).1.result_percent = 0) ∧
    (save_course_score now db userId courseId totalScore maxScore passingScore).1.scorePercent =
      score_percent totalScore maxScore := by
  refine ⟨fun h => by simp [score_percent, h], fun h => by simp [score_percent, h],
    rfl, ?_, rfl⟩
  rintro rfl
  simp [submit_quiz, score_percent]

/-- Witness for C7: 2 of 4 points gives 50 percent, and submitting an
empty question set gives percent 0 rather than a division error. -/
theorem C7_witness :
    (0 < 4 ∧ score_percent 2 4 = (2 : ℚ) / 4 * 100) ∧
    ((([] : List Question) = []) ∧
      (submit_quiz 20 70 1 1 0 [] exampleAnswers exampleQuizDB).1.result_percent = 0) :=
  ⟨⟨by decide,
      (C7_score_percent_total 20 1 1 70 0 [] exampleAnswers exampleQuizDB 2 4).1
        (by decide)⟩,
    rfl,
    (C7_score_percent_total 20 1 1 70 0 [] exampleAnswers exampleQuizDB 2 4).2.2.2.1 rfl⟩

lemma submitStep_db (points userId courseId : Nat) (answers : Nat → List String)
    (acc : GradeAcc) (q : Question) :
    (submitStep points userId courseId answers acc q).db.quizResults =
      acc.db.quizResults ++ [gradedRow points userId courseId answers q] ∧
    (submitStep points userId courseId answers acc q).db.courseScores =
      acc.db.courseScores := by
  constructor <;> rfl

lemma foldl_submitStep_db (points userId courseId : Nat)
    (answers : Nat → List String) (qs : List Question) (acc : GradeAcc) :
    (qs.foldl (submitStep points userId courseId answers) acc).db.quizResults =
      acc.db.quizResults ++ qs.map (gradedRow points userId courseId answers) ∧
    (qs.foldl (submitStep points userId courseId answers) acc).db.courseScores =
      acc.db.courseScores := by
  induction qs generalizing acc with
  | nil => simp
  | cons q qs ih =>
    rw [List.foldl_cons, List.map_cons]
    refine ⟨?_, ?_⟩
    · rw [(ih _).1, (submitStep_db points userId courseId answers acc q).1,
        List.append_assoc, List.singleton_append]
    · rw [(ih _).2, (submitStep_db points userId courseId answers acc q).2]

/-- C3: submitting a quiz appends, for each question, exactly the row
graded by exact set equality between the submitted letter set and the
correct letter set; a question is scored correct iff the two sets are
equal, and any submission whose letter set differs from the correct set
(for example a multi-select answer missing one correct letter) earns
zero points. -/
theorem C3_exact_set_equality_scoring (points : Nat) (passingScore : ℚ)
    (userId courseId : Nat) (now : Int) (questions : List Question)
    (answers : Nat → List String) (db : QuizDB) :
    (submit_quiz points passingScore userId courseId now questions answers db).2.quizResults =
      db.quizResults ++ questions.map (gradedRow points userId courseId answers) ∧
    (∀ q : Question,
      ((gradedRow points userId courseId answers q).isCorrect = true ↔
        (answers q.id).toFinset = q.correct_answers.toFinset)) ∧
    (∀ q : Question,
      (answers q.id).toFinset ≠ q.correct_answers.toFinset →
      (gradedRow points userId courseId answers q).scoreEarned = 0) := by
  refine ⟨?_, ?_, ?_⟩
  · simp only [submit_quiz, save_course_score]
    exact (foldl_submitStep_db points userId courseId answers questions ⟨0, 0, 0, db⟩).1
  · intro q
    simp [gradedRow, setEqBool]
  · intro q h
    simp [gradedRow, setEqBool, h]

/-- Witness for C3: a multi-select submission missing exactly one
correct letter earns zero points. -/
theorem C3_witness :
    ((["A"] : List String).toFinset ≠ exampleQuestion.correct_answers.toFinset) ∧
    (gradedRow 20 1 1 (fun _ => ["A"]) exampleQuestion).scoreEarned = 0 :=
  ⟨by decide,
    (C3_exact_set_equality_scoring 20 70 1 1 0 [exampleQuestion]
        (fun _ => ["A"]) exampleQuizDB).2.2 exampleQuestion (by decide)⟩

/-- C5 counterexample: the claim that a second submit call appends no
further per-question quiz-result rows is false: after submitting the
one-question quiz twice, the `quiz_results` table holds two rows, not
one. -/
theorem C5_counterexample :
    (submit_quiz 20 70 1 1 1 [exampleQuestion] exampleAnswers
        (submit_quiz 20 70 1 1 0 [exampleQuestion] exampleAnswers
          exampleQuizDB).2).2.quizResults.length ≠
      (submit_quiz 20 70 1 1 0 [exampleQuestion] exampleAnswers
        exampleQuizDB).2.quizResults.length := by
  decide

/-- C5 amended: `submit_quiz` has no already-submitted guard: every
call, including a repeated one for the same (user, course) session,
re-runs scoring, appends one fresh `quiz_results` row per question, and
overwrites (upserts) the stored course-score row with the freshly
computed result. -/
theorem C5_second_submit_rescores (points : Nat) (passingScore : ℚ)
    (userId courseId : Nat) (now : Int) (questions : List Question)
    (answers : Nat → List String) (db : QuizDB) :
    (submit_quiz points passingScore userId courseId now questions answers db).2.quizResults.length =
      db.quizResults.length + questions.length ∧
    (submit_quiz points passingScore userId courseId now questions answers db).2.courseScores =
      upsertCourseScore db.courseScores
        { userId := userId, courseId := courseId,
          totalScore :=
            (submit_quiz points passingScore userId courseId now questions answers db).1.result_score,
          maxScore :=
            (submit_quiz points passingScore userId courseId now questions answers db).1.result_max_score,
          scorePercent :=
            (submit_quiz points passingScore userId courseId now questions answers db).1.result_percent,
          passed :=
            (submit_quiz points passingScore userId courseId now questions answers db).1.result_passed,
          completedAt := now } := by
  have h := foldl_submitStep_db points userId courseId answers questions ⟨0, 0, 0, db⟩
  constructor
  · simp only [submit_quiz, save_course_score]
    rw [h.1]
    simp
  · simp only [submit_quiz, save_course_score]
    rw [h.2]

lemma length_filter_and_le {α : Type} (p b : α → Bool) (l : List α) :
    (l.filter (fun a => p a && b a)).length ≤ (l.filter p).length := by
  have hc : (fun a => p a && b a) = (fun a => b a && p a) := by
    funext a
    exact Bool.and_comm (p a) (b a)
  rw [hc, ← List.filter_filter]
  exact List.length_filter_le _ _

lemma filter_upsert_self (scores : List CourseScoreRow) (row : CourseScoreRow) :
    (upsertCourseScore scores row).filter
      (fun r => r.userId == row.userId && r.courseId == row.courseId) = [row] := by
  unfold upsertCourseScore
  rw [List.filter_append, List.filter_filter]
  simp

lemma pairCountScores_upsert_le (scores : List CourseScoreRow) (row : CourseScoreRow)
    (u c : Nat) (h : pairCountScores scores u c ≤ 1) :
    pairCountScores (upsertCourseScore scores row) u c ≤ 1 := by
  by_cases hp : row.userId = u ∧ row.courseId = c
  · obtain ⟨h1, h2⟩ := hp
    subst h1
    subst h2
    unfold pairCountScores
    rw [filter_upsert_self scores row]
    simp
  · unfold pairCountScores at h ⊢
    unfold upsertCourseScore
    rw [List.filter_append, List.filter_filter, List.length_append]
    have h2 : List.filter (fun r : CourseScoreRow =>
        r.userId == u && r.courseId == c) [row] = [] := by
      simp only [List.filter_cons, List.filter_nil]
      rw [if_neg]
      simpa using hp
    rw [h2]
    simp only [List.length_nil, Nat.add_zero]
    exact le_trans (length_filter_and_le _ _ _) h

/-- C8: the `course_scores` table holds at most one row per
(user, course) pair: `save_course_score` upserts, so if every pair had at
most one row before the call, that still holds after it, the written
pair has exactly one row, and that row is the newly computed result. -/
theorem C8_course_score_upsert_unique (now : Int) (db : QuizDB)
    (userId courseId totalScore maxScore : Nat) (passingScore : ℚ)
    (hinv : ∀ u c, pairCountScores db.courseScores u c ≤ 1) :
    (∀ u c, pairCountScores
      (save_course_score now db userId courseId totalScore maxScore
        passingScore).2.courseScores u c ≤ 1) ∧
    pairCountScores
      (save_course_score now db userId courseId totalScore maxScore
        passingScore).2.courseScores userId courseId = 1 ∧
    (save_course_score now db userId courseId totalScore maxScore
        passingScore).2.courseScores.filter
        (fun r => r.userId == userId && r.courseId == courseId) =
      [(save_course_score now db userId courseId totalScore maxScore
        passingScore).1] := by
  refine ⟨?_, ?_, ?_⟩
  · intro u c
    exact pairCountScores_upsert_le db.courseScores _ u c (hinv u c)
  · have h := filter_upsert_self db.courseScores
      (save_course_score now db userId courseId totalScore maxScore passingScore).1
    unfold pairCountScores
    rw [show ((save_course_score now db userId courseId totalScore maxScore
        passingScore).2.courseScores.filter
        (fun r => r.userId == userId && r.courseId == courseId)) =
      [(save_course_score now db userId courseId totalScore maxScore
        passingScore).1] from h]
    simp
  · exact filter_upsert_self db.courseScores
      (save_course_score now db userId courseId totalScore maxScore passingScore).1

/-- Witness for C8: upserting into an empty table yields exactly one row
for the written pair. -/
theorem C8_witness :
    (∀ u c, pairCountScores exampleQuizDB.courseScores u c ≤ 1) ∧
    pairCountScores
      (save_course_score 0 exampleQuizDB 1 1 20 20 70).2.courseScores 1 1 = 1 := by
  have hinv : ∀ u c, pairCountScores exampleQuizDB.courseScores u c ≤ 1 := by
    intro u c
    simp [pairCountScores, exampleQuizDB]
  exact ⟨hinv, (C8_course_score_upsert_unique 0 exampleQuizDB 1 1 20 20 70 hinv).2.1⟩

/-- C10: adding a user whose username is already present returns `False`
and leaves the database unchanged: the UNIQUE-constraint violation is
caught and no row is inserted or modified. -/
theorem C10_add_user_duplicate_unchanged (hash : String → String) (db : AuthDB)
    (username password email fullName role : String)
    (hdup : ∃ r ∈ db.users, r.username = username) :
    add_user hash db username password email fullName role = (false, db) := by
  obtain ⟨r, hr, hu⟩ := hdup
  have hany : db.users.any (fun r => r.username == username) = true :=
    List.any_eq_true.mpr ⟨r, hr, by simp [hu]⟩
  simp [add_user, hany]

/-- Witness for C10: re-adding the username `alice` fails and leaves the
table untouched. -/
theorem C10_witness :
    (∃ r ∈ exampleAuthDB.users, r.username = "alice") ∧
    add_user id exampleAuthDB "alice" "pw2" "" "" "student" = (false, exampleAuthDB) :=
  ⟨⟨exampleUser, by simp [exampleAuthDB], rfl⟩,
    C10_add_user_duplicate_unchanged id exampleAuthDB "alice" "pw2" "" "" "student"
      ⟨exampleUser, by simp [exampleAuthDB], rfl⟩⟩

lemma findUser_updateUsers (users : List UserRow) (uname : String) (uid : Nat)
    (f : UserRow → UserRow) (hf : ∀ r, (f r).username = r.username)
    (row : UserRow) (h : findUser users uname = some row) :
    findUser (updateUsers users uid f) uname =
      some (if row.userId = uid then f row else row) := by
  induction users with
  | nil => simp [findUser] at h
  | cons a l ih =>
    rw [findUser] at h
    rw [updateUsers, List.map_cons]
    by_cases ha : a.username = uname
    · rw [List.find?_cons_of_pos _ (by simp [ha])] at h
      injection h with h
      subst h
      have hga : (if a.userId = uid then f a else a).username = uname := by
        by_cases hu : a.userId = uid
        · rw [if_pos hu, hf, ha]
        · rw [if_neg hu, ha]
      rw [findUser, List.find?_cons_of_pos _ (by simp [hga])]
    · rw [List.find?_cons_of_neg _ (by simp [ha])] at h
      have hga : ¬ (if a.userId = uid then f a else a).username = uname := by
        by_cases hu : a.userId = uid
        · rw [if_pos hu, hf]
          exact ha
        · rw [if_neg hu]
          exact ha
      rw [findUser, List.find?_cons_of_neg _ (by simp [hga])]
      exact ih h

/-- C1: for an active credential, a wrong secret that raises the failed
count to at least `maxAttempts` sets `lockedUntil` to
`now + lockoutMinutes` (in seconds) and reports the locked-just-now
message; and while `lockedUntil > now`, every evaluation — whatever the
provided secret — reports the locked message with the remaining minutes
and leaves the `users` table (hence `failedAttempts`) unchanged. -/
theorem C1_lockout_threshold_and_window (hash : String → String)
    (config : AuthConfig) (now : Int) (db : AuthDB)
    (username password ip agent : String) (row : UserRow)
    (hfind : findUser db.users username = some row)
    (hactive : row.status = "active") :
    (row.lockedUntil = none →
      row.passwordHash ≠ hash password →
      config.maxLoginAttempts ≤ row.failedLoginCount + 1 →
      (authenticate_user hash config now db username password ip agent).1 =
        ⟨"failed", some (lockedJustNowMessage config.maxLoginAttempts
          config.lockoutMinutes), none⟩ ∧
      (authenticate_user hash config now db username password ip agent).2.users =
        updateUsers db.users row.userId (fun r =>
          { r with failedLoginCount := row.failedLoginCount + 1,
                   lockedUntil := some (now + (config.lockoutMinutes : Int) * 60) })) ∧
    (∀ t : Int, row.lockedUntil = some t → now < t →
      (authenticate_user hash config now db username password ip agent).1 =
        ⟨"failed", some (lockedMessage ((t - now) / 60)), none⟩ ∧
      (authenticate_user hash config now db username password ip agent).2.users =
        db.users) := by
  constructor
  · intro hnone hpw hmax
    constructor
    · simp [authenticate_user, hfind, hactive, hnone, passwordStep, hpw, hmax, logAttempt]
    · simp [authenticate_user, hfind, hactive, hnone, passwordStep, hpw, hmax, logAttempt]
  · intro t hlock hlt
    constructor
    · simp [authenticate_user, hfind, hactive, hlock, hlt, logAttempt]
    · simp [authenticate_user, hfind, hactive, hlock, hlt, logAttempt]

/-- Witness for C1: with `maxAttempts = 3`, a third wrong password locks
the account and returns the locked-just-now message. -/
theorem C1_witness :
    findUser nearLockDB.users "alice" = some nearLockUser ∧
    nearLockUser.status = "active" ∧
    (authenticate_user id ⟨3, 30⟩ 0 nearLockDB "alice" "wrong" "" "").1 =
      ⟨"failed", some (lockedJustNowMessage 3 30), none⟩ :=
  ⟨rfl, rfl,
    ((C1_lockout_threshold_and_window id ⟨3, 30⟩ 0 nearLockDB "alice" "wrong" "" ""
        nearLockUser rfl rfl).1 rfl (by decide) (by decide)).1⟩

/-- C6: (a) when a credential's lock has expired (`now ≥ lockedUntil`),
the evaluation behaves exactly as on the database where that credential
already has `failedAttempts = 0` and no lock — the reset happens before
the secret is judged, and repeating the check is idempotent; (b) a
successful authentication resets `failedAttempts` to 0, clears
`lockedUntil`, and records the login instant. -/
theorem C6_lock_expiry_and_success_reset (hash : String → String)
    (config : AuthConfig) (now : Int) (db : AuthDB)
    (username password ip agent : String) (row : UserRow)
    (hfind : findUser db.users username = some row)
    (hactive : row.status = "active") :
    (∀ t : Int, row.lockedUntil = some t → t ≤ now →
      authenticate_user hash config now db username password ip agent =
        authenticate_user hash config now
          { db with users := updateUsers db.users row.userId (fun r =>
              { r with failedLoginCount := 0, lockedUntil := none }) }
          username password ip agent) ∧
    ((row.lockedUntil = none ∨ ∃ t : Int, row.lockedUntil = some t ∧ t ≤ now) →
      row.passwordHash = hash password →
      (authenticate_user hash config now db username password ip agent).1 =
        ⟨"success", none, some row.userId⟩ ∧
      ∃ row2 : UserRow,
        findUser (authenticate_user hash config now db username password
          ip agent).2.users username = some row2 ∧
        row2.failedLoginCount = 0 ∧ row2.lockedUntil = none ∧
        row2.lastLogin = some now) := by
  have hreset : ∀ t : Int, row.lockedUntil = some t → t ≤ now →
      authenticate_user hash config now db username password ip agent =
        authenticate_user hash config now
          { db with users := updateUsers db.users row.userId (fun r =>
              { r with failedLoginCount := 0, lockedUntil := none }) }
          username password ip agent := by
    intro t hlock hexp
    have hnlt : ¬ now < t := not_lt.mpr hexp
    have hru := findUser_updateUsers db.users username row.userId
      (fun r => { r with failedLoginCount := 0, lockedUntil := none })
      (fun _ => rfl) row hfind
    rw [if_pos rfl] at hru
    simp [authenticate_user, hfind, hactive, hlock, hnlt, hru]
  refine ⟨hreset, ?_⟩
  intro hcase hsucc
  rcases hcase with hnone | ⟨t, hlock, hexp⟩
  · have hru := findUser_updateUsers db.users username row.userId
      (fun r => { r with lastLogin := some now, failedLoginCount := 0, lockedUntil := none })
      (fun _ => rfl) row hfind
    rw [if_pos rfl] at hru
    constructor
    · simp [authenticate_user, hfind, hactive, hnone, passwordStep, hsucc, logAttempt]
    · refine ⟨{ row with lastLogin := some now, failedLoginCount := 0, lockedUntil := none },
        ?_, rfl, rfl, rfl⟩
      simp [authenticate_user, hfind, hactive, hnone, passwordStep, hsucc,
        logAttempt, hru]
  · rw [hreset t hlock hexp]
    have hru := findUser_updateUsers db.users username row.userId
      (fun r => { r with failedLoginCount := 0, lockedUntil := none })
      (fun _ => rfl) row hfind
    rw [if_pos rfl] at hru
    have hru2 := findUser_updateUsers
      (updateUsers db.users row.userId (fun r => { r with failedLoginCount := 0, lockedUntil := none }))
      username row.userId
      (fun r => { r with lastLogin := some now, failedLoginCount := 0, lockedUntil := none })
      (fun _ => rfl)
      { row with failedLoginCount := 0, lockedUntil := none } hru
    rw [if_pos rfl] at hru2
    constructor
    · simp [authenticate_user, hfind, hactive, passwordStep, hsucc, logAttempt, hru]
    · refine ⟨{ row with lastLogin := some now, failedLoginCount := 0, lockedUntil := none },
        ?_, rfl, rfl, rfl⟩
      simp [authenticate_user, hfind, hactive, passwordStep, hsucc,
        logAttempt, hru, hru2]

/-- Witness for C6: an expired lock (until instant 100, checked at 200)
together with the correct password yields success. -/
theorem C6_witness :
    findUser expiredLockDB.users "alice" = some expiredLockUser ∧
    expiredLockUser.status = "active" ∧
    (authenticate_user id ⟨5, 30⟩ 200 expiredLockDB "alice" "pw" "" "").1 =
      ⟨"success", none, some 1⟩ :=
  ⟨rfl, rfl,
    ((C6_lock_expiry_and_success_reset id ⟨5, 30⟩ 200 expiredLockDB "alice" "pw"
        "" "" expiredLockUser rfl rfl).2
      (Or.inr ⟨100, rfl, by decide⟩) rfl).1⟩

lemma passwordStep_loginLogs (hash : String → String) (config : AuthConfig)
    (now : Int) (db : AuthDB) (username password ip agent : String)
    (userId : Nat) (passwordHash : String) (failedCount : Nat) :
    (passwordStep hash config now db username password ip agent userId
      passwordHash failedCount).2.loginLogs.length = db.loginLogs.length + 1 := by
  unfold passwordStep
  by_cases h1 : passwordHash ≠ hash password
  · by_cases h2 : config.maxLoginAttempts ≤ failedCount + 1
    · simp [h1, h2, logAttempt]
    · simp [h1, h2, logAttempt]
  · simp [h1, logAttempt]

/-- C9: every call to `authenticate_user` — success, wrong secret,
locked, locked-just-now, disabled or unknown username — appends exactly
one row to `login_logs`; when the username is unknown, that row carries
a null user id. -/
theorem C9_exactly_one_attempt_record (hash : String → String)
    (config : AuthConfig) (now : Int) (db : AuthDB)
    (username password ip agent : String) :
    (authenticate_user hash config now db username password ip agent).2.loginLogs.length =
      db.loginLogs.length + 1 ∧
    (findUser db.users username = none →
      (authenticate_user hash config now db username password ip agent).2.loginLogs.getLast? =
        some ⟨none, username, "failed", ip, agent, some "ユーザーが見つかりません"⟩) := by
  constructor
  · rcases hfind : findUser db.users username with _ | row
    · simp [authenticate_user, hfind, logAttempt]
    · by_cases hactive : row.status = "active"
      · rcases hlock : row.lockedUntil with _ | t
        · simp only [authenticate_user, hfind, hactive, hlock]
          exact passwordStep_loginLogs hash config now db username password
            ip agent row.userId row.passwordHash row.failedLoginCount
        · by_cases hlt : now < t
          · simp [authenticate_user, hfind, hactive, hlock, hlt, logAttempt]
          · simp only [authenticate_user, hfind, hactive, hlock, hlt]
            simpa using passwordStep_loginLogs hash config now
              { db with users := updateUsers db.users row.userId (fun r => { r with failedLoginCount := 0, lockedUntil := none }) }
              username password ip agent row.userId row.passwordHash 0
      · simp [authenticate_user, hfind, hactive, logAttempt]
  · intro hfind
    simp [authenticate_user, hfind, logAttempt, List.getLast?_concat]

/-- Witness for C9: an unknown username appends one failed record with a
null user id. -/
theorem C9_witness :
    findUser exampleAuthDB.users "bob" = none ∧
    (authenticate_user id ⟨5, 30⟩ 0 exampleAuthDB "bob" "x" "" "").2.loginLogs.length =
      exampleAuthDB.loginLogs.length + 1 ∧
    (authenticate_user id ⟨5, 30⟩ 0 exampleAuthDB "bob" "x" "" "").2.loginLogs.getLast? =
      some ⟨none, "bob", "failed", "", "", some "ユーザーが見つかりません"⟩ :=
  ⟨rfl,
    (C9_exactly_one_attempt_record id ⟨5, 30⟩ 0 exampleAuthDB "bob" "x" "" "").1,
    (C9_exactly_one_attempt_record id ⟨5, 30⟩ 0 exampleAuthDB "bob" "x" "" "").2 rfl⟩

lemma invalidSecretMessage_ne_userNotFoundMessage (n : Nat) :
    invalidSecretMessage n ≠ userNotFoundMessage := by
  intro h
  have h2 : (invalidSecretMessage n).data.head? = userNotFoundMessage.data.head? := by
    rw [h]
  unfold invalidSecretMessage userNotFoundMessage at h2
  rw [String.data_append, String.data_append] at h2
  rw [List.head?_append_of_ne_nil _ (List.append_ne_nil_of_left_ne_nil (by decide) _)] at h2
  rw [List.head?_append_of_ne_nil _ (by decide)] at h2
  exact absurd h2 (by decide)

/-- C2 counterexample: the claim that the caller-facing failure message
is identical for an unknown username and for a wrong secret on a known,
active, unlocked account is false: the two calls below return different
messages. -/
theorem C2_counterexample :
    (authenticate_user id ⟨5, 30⟩ 0 exampleAuthDB "bob" "wrong" "" "").1.message ≠
      (authenticate_user id ⟨5, 30⟩ 0 exampleAuthDB "alice" "wrong" "" "").1.message := by
  decide

/-- C2 amended: both the unknown-username case and the wrong-secret case
return status `"failed"`, but their messages are not identical: the
unknown-username case returns the fixed generic message while the
wrong-secret case (below the lockout threshold) returns a
password-specific message carrying the remaining attempt count, and no
remaining-attempt message ever equals the generic one — so a caller
observing the message can distinguish the two cases. -/
theorem C2_failure_messages_differ (hash : String → String)
    (config : AuthConfig) (now : Int) (db : AuthDB)
    (username password ip agent : String) :
    (findUser db.users username = none →
      (authenticate_user hash config now db username password ip agent).1 =
        ⟨"failed", some userNotFoundMessage, none⟩) ∧
    (∀ row : UserRow, findUser db.users username = some row →
      row.status = "active" → row.lockedUntil = none →
      row.passwordHash ≠ hash password →
      row.failedLoginCount + 1 < config.maxLoginAttempts →
      (authenticate_user hash config now db username password ip agent).1 =
        ⟨"failed", some (invalidSecretMessage
          (config.maxLoginAttempts - (row.failedLoginCount + 1))), none⟩) ∧
    (∀ n : Nat, invalidSecretMessage n ≠ userNotFoundMessage) := by
  refine ⟨?_, ?_, invalidSecretMessage_ne_userNotFoundMessage⟩
  · intro hfind
    simp [authenticate_user, hfind, logAttempt]
  · intro row hfind hactive hnone hpw hlt
    have hnle : ¬ config.maxLoginAttempts ≤ row.failedLoginCount + 1 := not_le.mpr hlt
    simp [authenticate_user, hfind, hactive, hnone, passwordStep, hpw, hnle, logAttempt]

/-- Witness for C2 (amended): the unknown-username case returns the
generic message. -/
theorem C2_witness :
    findUser exampleAuthDB.users "bob" = none ∧
    (authenticate_user id ⟨5, 30⟩ 0 exampleAuthDB "bob" "pw" "" "").1 =
      ⟨"failed", some userNotFoundMessage, none⟩ :=
  ⟨rfl, (C2_failure_messages_differ id ⟨5, 30⟩ 0 exampleAuthDB "bob" "pw" "" "").1 rfl⟩

end ELearning
